import Mathlib

/-!
Verification development for the padlock-cloud server core
(`server.go` of the repository): a shallow embedding of the data model,
the middleware pipeline construction, authentication, error rendering,
API-version negotiation, the deprecated-version email flow and server
initialization, with theorems checking the specification's claims.

Bytes are modelled as `List Nat`, instants and durations as `Int`
(nanoseconds, matching Go's `time.Duration`).  External collaborators
(the storage engine, the base64 codec, the template engine, the mail
sender, the rate limiter) are passed in as explicit data or functions,
mirroring the interfaces the Go code programs against.
-/

/-- Go `time.Hour` in nanoseconds (`time.Duration` is an int64 nanosecond
count). -/
def nsPerHour : Int := 3600 * 1000000000

/-- An authentication token attached to an account (`AuthToken`).
Timestamps are `Int` nanoseconds; `0` stands for Go's zero time. -/
structure AuthToken where
  email : String
  token : String
  ttype : String
  created : Int
  activated : Int
  lastUsed : Int
deriving Repr, DecidableEq

/-- Modelled from the spec: `AuthToken.Expired` lives in a source file that
is not part of `src/`.  Spec section 4.2: "a token is expired when the time
since its last use (or activation, if never used) exceeds a fixed window". -/
def AuthToken.Expired (t : AuthToken) (now window : Int) : Bool :=
  let ref := if t.lastUsed != 0 then t.lastUsed else t.activated
  now - ref > window

/-- An account, keyed by email, holding its auth-token collection. -/
structure Account where
  email : String
  authTokens : List AuthToken
deriving Repr, DecidableEq

/-- Modelled from the spec: `AuthToken.Validate` lives outside `src/`.
Spec section 4.2: authentication "scans the Account's token collection for
an exact identifier match"; on a match the token struct is the fully
populated one stored on the account. -/
def Account.findValidToken (acc : Account) (id : String) : Option AuthToken :=
  acc.authTokens.find? (fun t => t.token == id)

/-- Modelled from the spec: `Account.UpdateAuthToken` lives outside `src/`.
By the invariant "an Account never contains two AuthTokens with the same
identifier", updating replaces the token whose identifier matches. -/
def Account.UpdateAuthToken (acc : Account) (t : AuthToken) : Account :=
  { acc with authTokens := acc.authTokens.map (fun u => if u.token == t.token then t else u) }

/-- The `DataStore`: the opaque per-account blob (`server.go`). -/
structure DataStore where
  account : Account
  content : List Nat
deriving Repr, DecidableEq

/-- Implementation of `Storable.Key` for `DataStore`: the owning account's email. -/
def DataStore.Key (d : DataStore) : String :=
  d.account.email

/-- Implementation of `Storable.Deserialize` for `DataStore`: stores the raw bytes as
`Content` and returns a nil error. -/
def DataStore.Deserialize (d : DataStore) (data : List Nat) : DataStore × Option Unit :=
  ({ d with content := data }, none)

/-- Implementation of `Storable.Serialize` for `DataStore`: returns `Content` unchanged with
a nil error. -/
def DataStore.Serialize (d : DataStore) : (List Nat) × Option Unit :=
  (d.content, none)

/-- The `ApiVersion` constant from `server.go`. -/
def ApiVersion : Int := 1

/-- An endpoint as registered in `InitEndpoints`: the methods that have
handlers, the required version, and the authentication type. -/
structure Endpoint where
  methods : List String
  version : Int
  authType : String
deriving Repr, DecidableEq

/-- One middleware layer wrapped around a handler in `WrapEndpoint`,
carrying the data the Go code stores in the middleware struct. -/
inductive Layer where
  | csrf
  | checkEndpointVersion (version : Int)
  | authenticate (authType : String)
  | checkMethod (methods : List String)
  | handlePanic
  | handleError
deriving Repr, DecidableEq

/-- Modelled from the spec: the `Handler` interface and the middleware
`Wrap` methods live outside `src/`.  Spec section 4.3: "A pipeline is built
by wrapping a terminal endpoint handler in successive decorator layers",
each transform closing over the next handler; so `Wrap` is a constructor
placing a layer around an inner handler. -/
inductive Handler where
  | endpoint (e : Endpoint)
  | wrapped (l : Layer) (h : Handler)
deriving Repr, DecidableEq

/-- The layers of a wrapped handler, outermost (first to see the request)
first. -/
def Handler.layersOf : Handler → List Layer
  | .endpoint _ => []
  | .wrapped l h => l :: h.layersOf

/-- Translation of `Server.WrapEndpoint` (`server.go` lines 217-239), translated wrap by
wrap: each `X.Wrap(h)` makes `X` the new outermost layer. -/
def Server.WrapEndpoint (e : Endpoint) : Handler :=
  let h := Handler.endpoint e
  let h := if e.authType != "" then Handler.wrapped Layer.csrf h else h
  let h := Handler.wrapped (Layer.checkEndpointVersion e.version) h
  let h := Handler.wrapped (Layer.authenticate e.authType) h
  let h := Handler.wrapped (Layer.checkMethod e.methods) h
  let h := Handler.wrapped Layer.handlePanic h
  let h := Handler.wrapped Layer.handleError h
  h

/-- The `/store/` endpoint as registered in `InitEndpoints` (`server.go`
lines 272-281): GET/HEAD/PUT/DELETE handlers, version `ApiVersion`, auth
type `"api"`. -/
def storeEndpoint : Endpoint :=
  { methods := ["GET", "HEAD", "PUT", "DELETE"]
    version := ApiVersion
    authType := "api" }

/-- The `/dashboard/` endpoint as registered in `InitEndpoints`: a GET
handler, default version 0, auth type `"web"`. -/
def dashboardEndpoint : Endpoint :=
  { methods := ["GET"]
    version := 0
    authType := "web" }

/-- The `/` endpoint as registered in `InitEndpoints`: GET and PUT
handlers, default version 0, no auth type. -/
def rootEndpoint : Endpoint :=
  { methods := ["GET", "PUT"]
    version := 0
    authType := "" }

/-- Result of `Storage.Get` on an account, as seen by `Authenticate`:
found, `ErrNotFound`, or any other storage failure. -/
inductive StorageGetResult where
  | found (acc : Account)
  | notFound
  | failure
deriving Repr, DecidableEq

/-- The error values `Authenticate` can return. -/
inductive AuthError where
  | invalidAuthToken (email token : String)
  | expiredAuthToken (email token : String)
  | notFound
  | storageFailure
deriving Repr, DecidableEq

/-- Outcome of `Authenticate`: the returned value or error, together with
the accounts persisted through `Storage.Put` along the way. -/
structure AuthOutcome where
  result : Except AuthError AuthToken
  puts : List Account

/-- Translation of `Server.Authenticate` (`server.go` lines 127-168).  `getAccount`
stands for `Storage.Get` on an `Account` keyed by email; `reqToken` is the
result of `AuthTokenFromRequest` (`none` when it returned an error, in
which case the code returns a bare `InvalidAuthToken`). -/
def Server.Authenticate (getAccount : String → StorageGetResult)
    (reqToken : Option AuthToken) (now window : Int) : AuthOutcome :=
  match reqToken with
  | none => ⟨.error (.invalidAuthToken "" ""), []⟩
  | some authToken =>
    let invalidErr := AuthError.invalidAuthToken authToken.email authToken.token
    match getAccount authToken.email with
    | .notFound => ⟨.error invalidErr, []⟩
    | .failure => ⟨.error .storageFailure, []⟩
    | .found acc =>
      match acc.findValidToken authToken.token with
      | none => ⟨.error invalidErr, []⟩
      | some t =>
        if t.Expired now window then
          ⟨.error (.expiredAuthToken authToken.email authToken.token), []⟩
        else
          let t := { t with lastUsed := now }
          let acc := acc.UpdateAuthToken t
          ⟨.ok t, [acc]⟩

/-- Whether `sub` occurs as a contiguous run inside `l`
(Go `strings.Contains` over the characters). -/
def charsContain : List Char → List Char → Bool
  | l, sub =>
    if sub.isPrefixOf l then true
    else
      match l with
      | [] => false
      | _ :: t => charsContain t sub

/-- Go `strings.Contains s sub`. -/
def strContains (s sub : String) : Bool :=
  charsContain s.data sub.data

/-- Go `strings.HasPrefix s pre`: does `s` begin with `pre`? -/
def strBegins (s pre : String) : Bool :=
  pre.data.isPrefixOf s.data

/-- An error value as the error-translation layer sees it: HTTP status,
error kind, and message (the `ErrorResponse` interface). -/
structure ErrorResponseData where
  status : Nat
  code : String
  message : String
deriving Repr, DecidableEq

/-- The body written by `HandleError`: the JSON rendering of the error,
a rendered HTML error page, or the bare error message (the
`response == nil` fallback). -/
inductive RespBody where
  | jsonBody (e : ErrorResponseData)
  | htmlPage (page : String)
  | plainMessage (m : String)
deriving Repr, DecidableEq

/-- Is the body the JSON rendering? -/
def RespBody.isJsonBody : RespBody → Bool
  | .jsonBody _ => true
  | _ => false

/-- Is the body a rendered HTML error page? -/
def RespBody.isHtmlPage : RespBody → Bool
  | .htmlPage _ => true
  | _ => false

/-- Translation of `Server.HandleError` (`server.go` lines 181-214), restricted to the
response it writes: the `Content-Type` header (if any is set) and the
body.  `render` stands for `Templates.ErrorPage.Execute` on the error
message, `none` meaning the template failed (in which case `response`
stays nil and the bare message is written, with the `text/html` header
already set). -/
def Server.HandleError (accept : String) (e : ErrorResponseData)
    (render : String → Option String) : Option String × RespBody :=
  if accept == "application/json" || strBegins accept "application/vnd.padlock" then
    (some "application/json", .jsonBody e)
  else if strContains accept "text/html" then
    match render e.message with
    | some page => (some "text/html", .htmlPage page)
    | none => (some "text/html", .plainMessage e.message)
  else
    (none, .plainMessage e.message)

/-- Drop `p` from the front of `l`, or fail if it is not there. -/
def dropFront : List Char → List Char → Option (List Char)
  | [], l => some l
  | _, [] => none
  | p :: ps, c :: cs => if p == c then dropFront ps cs else none

/-- The regular expression `^application/vnd.padlock;version=(\d)$` of
`versionFromRequest`, applied to the `Accept` header: the unescaped `.`
matches any character, `\d` a single ASCII digit, and the anchors force a
full match.  Returns the captured digit. -/
def matchVndPadlockVersion (s : String) : Option Char :=
  match dropFront ("application/vnd".data) s.data with
  | none => none
  | some rest =>
    match rest with
    | [] => none
    | _ :: rest2 =>
      match dropFront ("padlock;version=".data) rest2 with
      | some [d] => if d.isDigit then some d else none
      | _ => none

/-- Digit-string accumulator for `goAtoi`. -/
def parseDigitsAux : List Char → Nat → Option Nat
  | [], acc => some acc
  | c :: cs, acc =>
    if c.isDigit then parseDigitsAux cs (acc * 10 + (c.toNat - 48))
    else none

/-- Go `strconv.Atoi`: an optional sign followed by at least one digit
(overflow ignored, as the inputs here are single-digit strings). -/
def goAtoi (s : String) : Option Int :=
  match s.data with
  | [] => none
  | '+' :: cs =>
    match cs with
    | [] => none
    | _ => (parseDigitsAux cs 0).map Int.ofNat
  | '-' :: cs =>
    match cs with
    | [] => none
    | _ => (parseDigitsAux cs 0).map (fun n => -(n : Int))
  | cs => (parseDigitsAux cs 0).map Int.ofNat

/-- Translation of `version, _ := strconv.Atoi(vString)`: the error is discarded, so a
failed parse leaves the zero value. -/
def atoiOrZero (s : String) : Int :=
  match goAtoi s with
  | some n => n
  | none => 0

/-- The request fields `versionFromRequest` reads. -/
structure VersionRequest where
  accept : String
  formApiVersion : String
  queryV : String
deriving Repr, DecidableEq

/-- Translation of `versionFromRequest` (`server.go` lines 19-36): the `Accept` header is
tried first, then the `api_version` form field, then the `v` query
parameter; the resulting string goes through `strconv.Atoi` with the
error ignored. -/
def versionFromRequest (r : VersionRequest) : Int :=
  let vString :=
    match matchVndPadlockVersion r.accept with
    | some d => String.singleton d
    | none => r.formApiVersion
  let vString := if vString == "" then r.queryV else vString
  atoiOrZero vString

/-- The inputs `SendDeprecatedVersionEmail` draws on: the request fields
it reads and the collaborators it calls.  `authEmail` is the email of the
token returned by `AuthTokenFromRequest` when that call succeeded;
`rateLimit` is `emailRateLimiter.RateLimit`; `renderResult` is the result
of executing `Templates.DeprecatedVersionEmail` (`none` on template
error); `sendFails` is whether the asynchronous `Sender.Send` call
errors. -/
structure DepEmailEnv where
  authEmail : Option String
  method : String
  urlPathTail : String
  formEmail : String
  ip : String
  rateLimit : String → String → Bool
  renderResult : Option String
  sendFails : Bool

/-- What `SendDeprecatedVersionEmail` did: its return value (`some` on the
template-error early return, `none` for a nil return), the email handed to
the asynchronous send goroutine (if any), and whether a send failure was
logged by that goroutine. -/
structure DepEmailOutcome where
  ret : Option Unit
  dispatched : Option (String × String × String)
  loggedSendFailure : Bool
deriving Repr

/-- The email-resolution cascade at the top of
`SendDeprecatedVersionEmail`: Authorization header first, then the URL
path for DELETE, then the `email` form value for PUT/POST. -/
def resolveDeprecatedEmail (env : DepEmailEnv) : String :=
  let email := match env.authEmail with
    | some e => e
    | none => ""
  let email := if email == "" && env.method == "DELETE" then env.urlPathTail else email
  let email :=
    if email == "" && (env.method == "PUT" || env.method == "POST") then env.formEmail
    else email
  email

/-- Translation of `Server.SendDeprecatedVersionEmail` (`server.go` lines 344-378).  The
`go func` dispatch is modelled by recording the email passed to
`Sender.Send`; its failure is turned into a log entry inside the
goroutine and never into a return value. -/
def Server.SendDeprecatedVersionEmail (env : DepEmailEnv) : DepEmailOutcome :=
  let email := resolveDeprecatedEmail env
  if email != "" && !(env.rateLimit env.ip email) then
    match env.renderResult with
    | none => ⟨some (), none, false⟩
    | some body =>
      ⟨none, some (email, "Please update your version of Padlock", body), env.sendFails⟩
  else
    ⟨none, none, false⟩

/-- A pending authentication request (`AuthRequest`), as far as the
cleaner predicate reads it: its creation instant in nanoseconds. -/
structure AuthRequest where
  token : String
  created : Int
deriving Repr, DecidableEq

/-- The staleness predicate `Server.Init` binds the storage cleaner to
(`server.go` lines 422-423): `t.Created.Before(time.Now().Add(-24 *
time.Hour))`, i.e. created strictly before 24 hours ago. -/
def authRequestStale (now : Int) (t : AuthRequest) : Bool :=
  t.created < now - 24 * nsPerHour

/-- The fallible collaborators `Server.Init` calls, as explicit results.
`decodeResult` is Go's `base64.StdEncoding.DecodeString(secret)` pair
`(s, err)` (`some ()` standing for a non-nil error); `randomResult` is
`randomBytes(32)`; `templatesPreset` is whether `server.Templates` was
already non-nil; the remaining fields are the error results of
`LoadTemplates`, `Storage.Open`, `NewEmailRateLimiter` and
`NewStorageCleaner`. -/
structure InitEnv where
  decodeResult : List Nat × Option Unit
  randomResult : List Nat × Option Unit
  templatesPreset : Bool
  loadTemplatesResult : Option Unit
  storageOpenResult : Option Unit
  rateLimiterResult : Option Unit
  cleanerResult : Option Unit

/-- The errors `Server.Init` can return (a `none` return value below is
Go's `nil`). -/
inductive InitError where
  | decodeError
  | randomBytesError
  | templateError
  | storageError
  | rateLimiterError
  | cleanerError
deriving Repr, DecidableEq

/-- What a run of `Server.Init` returned and did: the returned error (if
any), the value assigned to `server.secret` (if any), which
initialization steps ran, and the predicate and interval the auth-request
cleaner was started with. -/
structure InitOutcome where
  ret : Option InitError
  secret : Option (List Nat)
  endpointsInitialized : Bool
  templatesLoaded : Bool
  storageOpened : Bool
  rateLimiterCreated : Bool
  cleanerStarted : Bool
  cleanerPred : Option (Int → AuthRequest → Bool)
  cleanerInterval : Option Int

/-- The fresh outcome before `Init` runs: nothing assigned, nothing
initialized, nil return value. -/
def emptyInitOutcome : InitOutcome :=
  ⟨none, none, false, false, false, false, false, none, none⟩

/-- The part of `Server.Init` after the secret handling (`server.go`
lines 397-432): `InitEndpoints`, template loading when `Templates` is
nil, `Storage.Open`, `NewEmailRateLimiter`, and creating and starting the
auth-request cleaner with a 24-hour sweep interval. -/
def initAfterSecret (st : InitOutcome) (env : InitEnv) : InitOutcome :=
  let st := { st with endpointsInitialized := true }
  let templatesStep : Option InitError × Bool :=
    if env.templatesPreset then (none, false)
    else
      match env.loadTemplatesResult with
      | some _ => (some .templateError, false)
      | none => (none, true)
  match templatesStep with
  | (some e, _) => { st with ret := some e }
  | (none, loaded) =>
    let st := { st with templatesLoaded := loaded }
    match env.storageOpenResult with
    | some _ => { st with ret := some .storageError }
    | none =>
      let st := { st with storageOpened := true }
      match env.rateLimiterResult with
      | some _ => { st with ret := some .rateLimiterError }
      | none =>
        let st := { st with rateLimiterCreated := true }
        match env.cleanerResult with
        | some _ => { st with ret := some .cleanerError }
        | none =>
          { st with
            cleanerStarted := true
            cleanerPred := some authRequestStale
            cleanerInterval := some (24 * nsPerHour) }

/-- Translation of `Server.Init` (`server.go` lines 380-433).  The secret handling
mirrors the source exactly: with a non-empty configured secret, the
decode result `(s, err)` is destructured, `server.secret = s` happens in
the `err != nil` branch, and the other branch returns `err` (which is
nil there). -/
def Server.Init (cfgSecret : String) (env : InitEnv) : InitOutcome :=
  if cfgSecret != "" then
    match env.decodeResult with
    | (s, some _) => initAfterSecret { emptyInitOutcome with secret := some s } env
    | (_, none) => emptyInitOutcome
  else
    match env.randomResult with
    | (_, some _) => { emptyInitOutcome with ret := some .randomBytesError }
    | (key, none) => initAfterSecret { emptyInitOutcome with secret := some key } env

/-- A concrete presented credential pair, as parsed from an Authorization
header. -/
def tokEx : AuthToken :=
  ⟨"u@example.com", "t1", "api", 0, 0, 0⟩

/-- A concrete stored token with the same identifier as `tokEx`. -/
def storedTokEx : AuthToken :=
  ⟨"u@example.com", "t1", "api", 0, 1, 2⟩

/-- A concrete account with no tokens. -/
def accEmptyEx : Account :=
  ⟨"u@example.com", []⟩

/-- A concrete account holding `storedTokEx`. -/
def accEx : Account :=
  ⟨"u@example.com", [storedTokEx]⟩

/-- A concrete error response. -/
def errEx : ErrorResponseData :=
  ⟨500, "server_error", "oops"⟩

/-- A concrete error-page renderer that always succeeds. -/
def renderEx : String → Option String :=
  fun m => some ("page:" ++ m)

/-- A concrete `SendDeprecatedVersionEmail` environment whose rate limiter
reports the key as limited. -/
def depEnvLimited : DepEmailEnv :=
  ⟨some "u@example.com", "POST", "", "", "1.2.3.4", fun _ _ => true, some "BODY", false⟩

/-- A concrete `SendDeprecatedVersionEmail` environment that dispatches an
email whose asynchronous send fails. -/
def depEnvSending : DepEmailEnv :=
  ⟨some "u@example.com", "POST", "", "", "1.2.3.4", fun _ _ => false, some "BODY", true⟩

/-- A concrete `Init` environment whose base64 decode succeeds. -/
def initEnvDecodeOk : InitEnv :=
  ⟨([1, 2, 3], none), ([], none), true, none, none, none, none⟩

/-- A concrete `Init` environment whose base64 decode fails. -/
def initEnvDecodeErr : InitEnv :=
  ⟨([], some ()), ([7], none), true, none, none, none, none⟩

/-- A concrete `Init` environment with no configured secret and all
collaborators succeeding, so initialization runs to completion. -/
def initEnvOk : InitEnv :=
  ⟨([], none), ([9], none), true, none, none, none, none⟩

/-- Helper: the digit captured by the Accept-header pattern satisfies
`isDigit`. -/
theorem matchVnd_isDigit (s : String) (d : Char)
    (h : matchVndPadlockVersion s = some d) : d.isDigit = true := by
  unfold matchVndPadlockVersion at h
  split at h
  · simp at h
  · split at h
    · simp at h
    · split at h
      · rename_i d2
        split at h
        · rename_i hdig
          simp at h
          subst h
          exact hdig
        · simp at h
      · simp at h

/-- Helper: `goAtoi` on a one-digit string yields the digit's value. -/
theorem goAtoi_singleton_digit (d : Char) (hd : d.isDigit = true) :
    goAtoi (String.singleton d) = Int.ofNat (d.toNat - 48) := by
  have h1 : d ≠ '+' := by intro h; subst h; simp [Char.isDigit] at hd
  have h2 : d ≠ '-' := by intro h; subst h; simp [Char.isDigit] at hd
  have hdata : (String.singleton d).data = [d] := rfl
  unfold goAtoi
  rw [hdata]
  split
  · rename_i heq; exact absurd heq (by simp)
  · rename_i cs heq
    rw [List.cons.injEq] at heq
    exact absurd heq.1 h1
  · rename_i cs heq
    rw [List.cons.injEq] at heq
    exact absurd heq.1 h2
  · rename_i cs h3 h4 h5
    simp [parseDigitsAux, hd]

/-- Helper: the tail of `Init` after the secret handling never touches the
assigned secret. -/
theorem initAfterSecret_secret_eq (st : InitOutcome) (env : InitEnv) :
    (initAfterSecret st env).secret = st.secret := by
  unfold initAfterSecret
  cases env.templatesPreset <;> cases env.loadTemplatesResult <;>
    cases env.storageOpenResult <;> cases env.rateLimiterResult <;>
    cases env.cleanerResult <;> rfl

/-- Helper: if the tail of `Init` started the cleaner, it bound it to the
staleness predicate and a 24-hour interval. -/
theorem initAfterSecret_cleanerFields (st : InitOutcome) (env : InitEnv)
    (h2 : st.cleanerStarted = false) :
    (initAfterSecret st env).cleanerStarted = true →
      (initAfterSecret st env).cleanerPred = some authRequestStale ∧
      (initAfterSecret st env).cleanerInterval = some (24 * nsPerHour) := by
  unfold initAfterSecret
  cases env.templatesPreset <;> cases env.loadTemplatesResult <;>
    cases env.storageOpenResult <;> cases env.rateLimiterResult <;>
    cases env.cleanerResult <;> simp [h2]

/-- Helper: lifting `initAfterSecret_cleanerFields` through the secret
handling of `Init`. -/
theorem init_cleaner_aux (cfgSecret : String) (env : InitEnv) :
    (Server.Init cfgSecret env).cleanerStarted = true →
      (Server.Init cfgSecret env).cleanerPred = some authRequestStale ∧
      (Server.Init cfgSecret env).cleanerInterval = some (24 * nsPerHour) := by
  unfold Server.Init
  rcases hd : env.decodeResult with ⟨s, err⟩
  rcases hr : env.randomResult with ⟨key, rerr⟩
  split
  · cases err with
    | some u => exact initAfterSecret_cleanerFields _ env rfl
    | none => intro h; simp [emptyInitOutcome] at h
  · cases rerr with
    | some u => intro h; simp [emptyInitOutcome] at h
    | none => exact initAfterSecret_cleanerFields _ env rfl

/-- C1: the claim says panic containment is the outermost pipeline layer,
followed by error translation, then method validation, authentication,
API-version validation and CSRF.  The code wraps `HandleError` after
`HandlePanic`, so for every endpoint the error-translation layer is
outermost and panic containment second; the remaining order matches the
claim. -/
theorem wrapEndpoint_layer_order (e : Endpoint) :
    Handler.layersOf (Server.WrapEndpoint e) =
      [Layer.handleError, Layer.handlePanic, Layer.checkMethod e.methods,
       Layer.authenticate e.authType, Layer.checkEndpointVersion e.version]
      ++ (if e.authType != "" then [Layer.csrf] else []) := by
  cases h : e.authType != "" <;>
    simp [Server.WrapEndpoint, Handler.layersOf, h]

/-- C2: the claim says the CSRF layer is included exactly for endpoints
with auth type `"web"`.  The code guards the CSRF wrap with
`endpoint.AuthType != ""` (its own comment says `"web"`), so the
`/store/` endpoint with auth type `"api"` is CSRF-wrapped too, while
endpoints with no auth type are not. -/
theorem wrapEndpoint_csrf_for_api_auth_type :
    storeEndpoint.authType = "api"
    ∧ (Handler.layersOf (Server.WrapEndpoint storeEndpoint)).contains Layer.csrf = true
    ∧ (Handler.layersOf (Server.WrapEndpoint rootEndpoint)).contains Layer.csrf = false :=
  ⟨rfl, rfl, rfl⟩

/-- C3: authenticating with an email that has no stored account fails with
`InvalidAuthToken` (not `NotFound`), the same error value as when the
account exists but holds no token with the presented identifier. -/
theorem authenticate_unknown_email_invalid_token
    (getAcc getAcc2 : String → StorageGetResult) (tok : AuthToken)
    (acc : Account) (now window : Int)
    (hmiss : getAcc tok.email = .notFound)
    (hfound : getAcc2 tok.email = .found acc)
    (hnotok : acc.findValidToken tok.token = none) :
    (Server.Authenticate getAcc (some tok) now window).result
        = .error (.invalidAuthToken tok.email tok.token)
    ∧ (Server.Authenticate getAcc (some tok) now window).result
        ≠ .error .notFound
    ∧ (Server.Authenticate getAcc2 (some tok) now window).result
        = .error (.invalidAuthToken tok.email tok.token) := by
  refine ⟨?_, ?_, ?_⟩ <;> simp [Server.Authenticate, hmiss, hfound, hnotok]

/-- C3 witness: the theorem applied to a concrete missing account and a
concrete token-less account. -/
theorem authenticate_unknown_email_invalid_token_witness :
    (Server.Authenticate (fun _ => .notFound) (some tokEx) 10 100).result
        = .error (.invalidAuthToken "u@example.com" "t1")
    ∧ (Server.Authenticate (fun _ => .notFound) (some tokEx) 10 100).result
        ≠ .error .notFound
    ∧ (Server.Authenticate (fun _ => .found accEmptyEx) (some tokEx) 10 100).result
        = .error (.invalidAuthToken "u@example.com" "t1") :=
  authenticate_unknown_email_invalid_token (fun _ => .notFound)
    (fun _ => .found accEmptyEx) tokEx accEmptyEx 10 100 rfl rfl rfl

/-- C4: with a non-empty configured secret that decodes without error,
`Init` returns nil immediately after the decode attempt, doing nothing
else (no secret stored, no endpoints, templates, storage, rate limiter or
cleaner); and the decode result is assigned to the server secret exactly
in the branch where the decode error is non-nil. -/
theorem init_valid_secret_early_nil_return (cfgSecret : String) (env env2 : InitEnv)
    (hne : cfgSecret ≠ "")
    (hok : env.decodeResult.2 = none)
    (hbad : env2.decodeResult.2 ≠ none) :
    Server.Init cfgSecret env = emptyInitOutcome
    ∧ (Server.Init cfgSecret env).secret = none
    ∧ (Server.Init cfgSecret env2).secret = some env2.decodeResult.1 := by
  have hb : (cfgSecret != "") = true := by simp [hne]
  refine ⟨?_, ?_, ?_⟩
  · rcases hd : env.decodeResult with ⟨s, err⟩
    rw [hd] at hok; simp at hok; subst hok
    simp [Server.Init, hb, hd]
  · rcases hd : env.decodeResult with ⟨s, err⟩
    rw [hd] at hok; simp at hok; subst hok
    simp [Server.Init, hb, hd, emptyInitOutcome]
  · rcases hd : env2.decodeResult with ⟨s, err⟩
    rw [hd] at hbad; simp at hbad
    rcases Option.ne_none_iff_exists.mp (by simpa using hbad) with ⟨u, hu⟩
    rw [← hu] at hd ⊢
    simp [Server.Init, hb, hd, initAfterSecret_secret_eq]

/-- C4 witness: the theorem applied to a secret that decodes successfully
and one whose decode errors. -/
theorem init_valid_secret_early_nil_return_witness :
    Server.Init "c2VjcmV0" initEnvDecodeOk = emptyInitOutcome
    ∧ (Server.Init "c2VjcmV0" initEnvDecodeOk).secret = none
    ∧ (Server.Init "c2VjcmV0" initEnvDecodeErr).secret = some [] :=
  init_valid_secret_early_nil_return "c2VjcmV0" initEnvDecodeOk initEnvDecodeErr
    (by decide) rfl (by decide)

/-- C5: on a successful authentication the matched stored token gets its
`LastUsed` field set to the current time, the account is updated with that
token and persisted through `Storage.Put`; if the matched token is
expired, authentication fails with `ExpiredAuthToken` and nothing is
persisted. -/
theorem authenticate_success_updates_and_persists
    (getAcc : String → StorageGetResult) (tok t : AuthToken) (acc : Account)
    (now window : Int)
    (hacc : getAcc tok.email = .found acc)
    (htok : acc.findValidToken tok.token = some t) :
    (t.Expired now window = false →
      Server.Authenticate getAcc (some tok) now window =
        ⟨.ok { t with lastUsed := now },
         [acc.UpdateAuthToken { t with lastUsed := now }]⟩)
    ∧ (t.Expired now window = true →
      Server.Authenticate getAcc (some tok) now window =
        ⟨.error (.expiredAuthToken tok.email tok.token), []⟩) := by
  constructor <;> intro h <;> simp [Server.Authenticate, hacc, htok, h]

/-- C5 witness: the theorem applied to a concrete account whose stored
token is fresh at time 10 and expired at time 500 (window 100). -/
theorem authenticate_success_updates_and_persists_witness :
    Server.Authenticate (fun _ => .found accEx) (some tokEx) 10 100 =
      ⟨.ok { storedTokEx with lastUsed := 10 },
       [accEx.UpdateAuthToken { storedTokEx with lastUsed := 10 }]⟩
    ∧ Server.Authenticate (fun _ => .found accEx) (some tokEx) 500 100 =
      ⟨.error (.expiredAuthToken "u@example.com" "t1"), []⟩ :=
  ⟨(authenticate_success_updates_and_persists (fun _ => .found accEx)
      tokEx storedTokEx accEx 10 100 rfl rfl).1 (by decide),
   (authenticate_success_updates_and_persists (fun _ => .found accEx)
      tokEx storedTokEx accEx 500 100 rfl rfl).2 (by decide)⟩

/-- C6 counterexample: with an empty `Accept` header (which accepts
neither JSON nor a padlock media type, and does not mention `text/html`)
the body written by `HandleError` is neither JSON nor a rendered HTML
error page — it is the bare message — even though the page template
renders fine; this refutes "in every other case it is a rendered HTML
error page". -/
theorem handleError_not_html_counterexample :
    (Server.HandleError "" errEx renderEx).2.isJsonBody = false
    ∧ (Server.HandleError "" errEx renderEx).2.isHtmlPage = false
    ∧ (Server.HandleError "" errEx renderEx).2 = RespBody.plainMessage "oops" :=
  ⟨rfl, rfl, rfl⟩

/-- C6 (amended): the body is JSON exactly when `Accept` equals
`application/json` or starts with `application/vnd.padlock`; otherwise, if
`Accept` contains `text/html`, the rendered error page is written (falling
back to the bare message, still under a `text/html` content type, when the
template fails); in every other case the bare message is written with no
content type set. -/
theorem handleError_content_negotiation (accept : String) (e : ErrorResponseData)
    (render : String → Option String) :
    ((Server.HandleError accept e render).2.isJsonBody = true ↔
      (accept = "application/json" ∨ strBegins accept "application/vnd.padlock" = true))
    ∧ (∀ page, (accept == "application/json" || strBegins accept "application/vnd.padlock") = false →
        strContains accept "text/html" = true → render e.message = some page →
        Server.HandleError accept e render = (some "text/html", .htmlPage page))
    ∧ ((accept == "application/json" || strBegins accept "application/vnd.padlock") = false →
        strContains accept "text/html" = true → render e.message = none →
        Server.HandleError accept e render = (some "text/html", .plainMessage e.message))
    ∧ ((accept == "application/json" || strBegins accept "application/vnd.padlock") = false →
        strContains accept "text/html" = false →
        Server.HandleError accept e render = (none, .plainMessage e.message)) := by
  refine ⟨?_, ?_, ?_, ?_⟩
  · by_cases hc : (accept == "application/json" || strBegins accept "application/vnd.padlock") = true
    · simp only [Server.HandleError, hc, if_true]
      simp [RespBody.isJsonBody]
      rw [Bool.or_eq_true, beq_iff_eq] at hc
      exact hc
    · rw [Bool.not_eq_true] at hc
      simp only [Server.HandleError, hc, Bool.false_eq_true, if_false]
      rw [Bool.or_eq_false_iff, beq_eq_false_iff_ne] at hc
      constructor
      · intro hj
        exfalso
        split at hj
        · cases hr : render e.message with
          | some page => rw [hr] at hj; simp [RespBody.isJsonBody] at hj
          | none => rw [hr] at hj; simp [RespBody.isJsonBody] at hj
        · simp [RespBody.isJsonBody] at hj
      · intro hor
        rcases hor with h | h
        · exact absurd h hc.1
        · rw [hc.2] at h; exact absurd h (by simp)
  · intro page hc hh hr
    simp [Server.HandleError, hc, hh, hr]
  · intro hc hh hr
    simp [Server.HandleError, hc, hh, hr]
  · intro hc hh
    simp [Server.HandleError, hc, hh]

/-- C6 witness: the amended behavior at concrete headers — JSON for
`application/json`, rendered page for `text/html`, message fallback on
template failure, bare message for an empty header. -/
theorem handleError_content_negotiation_witness :
    ((Server.HandleError "application/json" errEx renderEx).2.isJsonBody = true ↔
      ("application/json" = "application/json"
        ∨ strBegins "application/json" "application/vnd.padlock" = true))
    ∧ Server.HandleError "text/html" errEx (fun _ => some "PAGE")
        = (some "text/html", .htmlPage "PAGE")
    ∧ Server.HandleError "text/html" errEx (fun _ => none)
        = (some "text/html", .plainMessage "oops")
    ∧ Server.HandleError "" errEx (fun _ => some "PAGE")
        = (none, .plainMessage "oops") :=
  ⟨(handleError_content_negotiation "application/json" errEx renderEx).1,
   (handleError_content_negotiation "text/html" errEx (fun _ => some "PAGE")).2.1
      "PAGE" (by decide) (by decide) rfl,
   (handleError_content_negotiation "text/html" errEx (fun _ => none)).2.2.1
      (by decide) (by decide) rfl,
   (handleError_content_negotiation "" errEx (fun _ => some "PAGE")).2.2.2
      (by decide) (by decide)⟩

/-- C7: the API version comes from the `Accept` header pattern when it
matches (yielding the captured digit's value), else from the
`api_version` form field when non-empty, else from the `v` query
parameter; when none supplies a version the result is 0 (legacy). -/
theorem versionFromRequest_precedence (r : VersionRequest) (d : Char) :
    (matchVndPadlockVersion r.accept = some d →
        versionFromRequest r = Int.ofNat (d.toNat - 48))
    ∧ (matchVndPadlockVersion r.accept = none → r.formApiVersion ≠ "" →
        versionFromRequest r = atoiOrZero r.formApiVersion)
    ∧ (matchVndPadlockVersion r.accept = none → r.formApiVersion = "" →
        versionFromRequest r = atoiOrZero r.queryV)
    ∧ (matchVndPadlockVersion r.accept = none → r.formApiVersion = "" →
        r.queryV = "" → versionFromRequest r = 0) := by
  refine ⟨?_, ?_, ?_, ?_⟩
  · intro hm
    have hdig := matchVnd_isDigit r.accept d hm
    have hne : (String.singleton d == "") = false := rfl
    simp only [versionFromRequest, hm, hne, Bool.false_eq_true, if_false]
    simp [atoiOrZero, goAtoi_singleton_digit d hdig]
  · intro hm hf
    have hfb : (r.formApiVersion == "") = false := by simp [hf]
    simp [versionFromRequest, hm, hfb]
  · intro hm hf
    simp [versionFromRequest, hm, hf]
  · intro hm hf hq
    simp [versionFromRequest, hm, hf, hq, atoiOrZero, goAtoi]

/-- C7 witness: the theorem applied at a matching Accept header, a form
value, a query value, and an empty request. -/
theorem versionFromRequest_precedence_witness :
    versionFromRequest ⟨"application/vnd.padlock;version=1", "", ""⟩
        = Int.ofNat ('1'.toNat - 48)
    ∧ versionFromRequest ⟨"", "2", ""⟩ = atoiOrZero "2"
    ∧ versionFromRequest ⟨"", "", "3"⟩ = atoiOrZero "3"
    ∧ versionFromRequest ⟨"", "", ""⟩ = 0 :=
  ⟨(versionFromRequest_precedence ⟨"application/vnd.padlock;version=1", "", ""⟩ '1').1 rfl,
   (versionFromRequest_precedence ⟨"", "2", ""⟩ '1').2.1 rfl (by decide),
   (versionFromRequest_precedence ⟨"", "", "3"⟩ '1').2.2.1 rfl rfl,
   (versionFromRequest_precedence ⟨"", "", ""⟩ '1').2.2.2 rfl rfl rfl⟩

/-- C8: when the rate limiter reports the resolved email as limited,
`SendDeprecatedVersionEmail` dispatches nothing and still returns nil;
and whenever an email is dispatched (to the asynchronous send), the
function's return value is nil — a send failure is only logged inside
the goroutine, never returned. -/
theorem sendDeprecatedVersionEmail_limited_and_async (env env2 : DepEmailEnv)
    (x : String × String × String)
    (hmail : resolveDeprecatedEmail env ≠ "")
    (hlim : env.rateLimit env.ip (resolveDeprecatedEmail env) = true)
    (hdisp : (Server.SendDeprecatedVersionEmail env2).dispatched = some x) :
    Server.SendDeprecatedVersionEmail env = ⟨none, none, false⟩
    ∧ (Server.SendDeprecatedVersionEmail env2).ret = none
    ∧ (Server.SendDeprecatedVersionEmail env2).loggedSendFailure = env2.sendFails := by
  refine ⟨?_, ?_⟩
  · simp [Server.SendDeprecatedVersionEmail, hlim]
  · simp only [Server.SendDeprecatedVersionEmail] at hdisp ⊢
    split at hdisp
    · cases hr : env2.renderResult with
      | none => rw [hr] at hdisp; simp at hdisp
      | some body =>
        rw [hr] at hdisp
        rename_i hc
        simp [hc, hr]
    · simp at hdisp

/-- C8 witness: the theorem applied to a rate-limited environment and to
one that dispatches an email whose asynchronous send fails. -/
theorem sendDeprecatedVersionEmail_limited_and_async_witness :
    Server.SendDeprecatedVersionEmail depEnvLimited = ⟨none, none, false⟩
    ∧ (Server.SendDeprecatedVersionEmail depEnvSending).ret = none
    ∧ (Server.SendDeprecatedVersionEmail depEnvSending).loggedSendFailure
        = depEnvSending.sendFails :=
  sendDeprecatedVersionEmail_limited_and_async depEnvLimited depEnvSending
    ("u@example.com", "Please update your version of Padlock", "BODY")
    (by decide) rfl rfl

/-- C9: whenever `Init` starts the auth-request cleaner, it binds it to
the `AuthRequest` staleness predicate — which holds exactly when the
creation timestamp is more than 24 hours before the evaluation time —
and starts it with a 24-hour sweep interval. -/
theorem init_authRequest_cleaner_spec (cfgSecret : String) (env : InitEnv)
    (now : Int) (t : AuthRequest)
    (hstarted : (Server.Init cfgSecret env).cleanerStarted = true) :
    (Server.Init cfgSecret env).cleanerPred = some authRequestStale
    ∧ (Server.Init cfgSecret env).cleanerInterval = some (24 * nsPerHour)
    ∧ (authRequestStale now t = true ↔ now - t.created > 24 * nsPerHour) := by
  obtain ⟨h1, h2⟩ := init_cleaner_aux cfgSecret env hstarted
  refine ⟨h1, h2, ?_⟩
  simp [authRequestStale, nsPerHour]
  omega

/-- C9 witness: the theorem applied to a run of `Init` with no configured
secret and all collaborators succeeding, and a request created well over
24 hours before the evaluation time. -/
theorem init_authRequest_cleaner_spec_witness :
    (Server.Init "" initEnvOk).cleanerPred = some authRequestStale
    ∧ (Server.Init "" initEnvOk).cleanerInterval = some (24 * nsPerHour)
    ∧ (authRequestStale 0 ⟨"r", -100000000000000⟩ = true ↔
        (0 : Int) - (-100000000000000 : Int) > 24 * nsPerHour) :=
  init_authRequest_cleaner_spec "" initEnvOk 0 ⟨"r", -100000000000000⟩ rfl

/-- C10: deserializing any byte sequence and serializing returns it
unchanged, serializing and deserializing reproduces the content
byte-for-byte, and both operations report a nil error, inspecting
nothing. -/
theorem dataStore_serialize_roundtrip (d : DataStore) (b : List Nat) :
    ((d.Deserialize b).1.Serialize).1 = b
    ∧ ((d.Deserialize (d.Serialize).1).1).content = d.content
    ∧ (d.Deserialize b).2 = none
    ∧ (d.Serialize).2 = none :=
  ⟨rfl, rfl, rfl, rfl⟩
